import Mathlib

/-!
Verification development for the conversation-session and usage-quota core
of bot.py: the per-user usage store with daily/monthly window rollover, the
three-limit admission check, the in-memory thread registry, and the
assistant run driver with its polling loop and reply extraction.

The embedding is state-passing: the content of usage.json is threaded as a
`Store` value; `load_usage` is reading that value and `save_usage` is
returning an updated one, so a function that never calls `save_usage`
returns the disk it was given.
-/

namespace Simbi

/-- Calendar day stamp. The code stores `datetime.now().strftime("%Y-%m-%d")`;
two such strings are equal exactly when year, month and day all agree, so the
stamp is modelled as the triple of numbers. -/
structure Date where
  year : Nat
  month : Nat
  day : Nat
deriving DecidableEq

/-- Calendar month stamp, the `"%Y-%m"` string of the code. -/
structure Month where
  year : Nat
  month : Nat
deriving DecidableEq

/-- The month a day stamp falls in: the string `"%Y-%m-%d"` determines
`"%Y-%m"` (its first seven characters). -/
def Date.toMonth (d : Date) : Month :=
  { year := d.year, month := d.month }

/-- One per-user entry of usage.json, as created on bot.py lines 87-94:
`daily`, `monthly`, `last_day`, `last_month`, `tokens_today`, `tokens_month`. -/
structure UsageRecord where
  daily : Nat
  monthly : Nat
  last_day : Date
  last_month : Month
  tokens_today : Nat
  tokens_month : Nat
deriving DecidableEq

/-- bot.py line 65. -/
def DAILY_MSG_LIMIT : Nat := 50

/-- bot.py line 66. -/
def MONTHLY_MSG_LIMIT : Nat := 500

/-- bot.py line 67. -/
def MONTHLY_TOKEN_LIMIT : Nat := 200000

/-- Association-list lookup, modelling a Python dict read keyed by the
stringified user id (stringification of integers is injective, so `Nat`
keys are faithful). -/
def alookup {α : Type} : List (Nat × α) → Nat → Option α
  | [], _ => none
  | (k, v) :: rest, key => if k = key then some v else alookup rest key

/-- Association-list insert-or-overwrite, modelling a Python dict write. -/
def aset {α : Type} : List (Nat × α) → Nat → α → List (Nat × α)
  | [], key, v => [(key, v)]
  | (k, w) :: rest, key, v =>
    if k = key then (key, v) :: rest else (k, w) :: aset rest key v

/-- The usage store: the JSON object held in usage.json, keyed by user id. -/
abbrev Store := List (Nat × UsageRecord)

/-- The zeroed record created for a user absent from the store
(bot.py lines 86-94). -/
def newRecord (today : Date) : UsageRecord :=
  { daily := 0, monthly := 0, last_day := today, last_month := today.toMonth,
    tokens_today := 0, tokens_month := 0 }

/-- Lines 98-106 of `_ensure_usage_structure`: the two independent window
resets applied to the record bound to `user`. `today` is the clock reading;
the month compared on line 103 is the month of that same clock (the code
formats two `datetime.now()` calls made back to back; they are modelled as
one instant). -/
def reconcileRecord (today : Date) (u : UsageRecord) : UsageRecord :=
  let u1 :=
    if u.last_day ≠ today then
      { u with daily := 0, tokens_today := 0, last_day := today }
    else u
  if u1.last_month ≠ today.toMonth then
    { u1 with monthly := 0, tokens_month := 0, last_month := today.toMonth }
  else u1

/-- `_ensure_usage_structure` (bot.py lines 82-108): inserts a zeroed record
for an unknown user, reconciles the stale windows of the record in place
(the Python code mutates the dict entry through the `user` alias), and
returns the updated mapping together with the record of the user. -/
def ensure_usage_structure (today : Date) (usage : Store) (user_id : Nat) :
    Store × UsageRecord :=
  let usage0 :=
    match alookup usage user_id with
    | some _ => usage
    | none => aset usage user_id (newRecord today)
  let user := (alookup usage0 user_id).getD (newRecord today)
  let user1 := reconcileRecord today user
  (aset usage0 user_id user1, user1)

/-- `can_user_continue` (bot.py lines 111-122) together with the disk state
after the call: the function reads usage.json (`load_usage`), reconciles the
in-memory copy, and returns its decision; it never calls `save_usage`, so
the file content after the call is the `disk` it read. -/
def can_user_continue_st (today : Date) (user_id : Nat) (disk : Store) :
    Bool × Store :=
  let usage := disk
  let user := (ensure_usage_structure today usage user_id).2
  let decision :=
    if user.daily ≥ DAILY_MSG_LIMIT then false
    else if user.monthly ≥ MONTHLY_MSG_LIMIT then false
    else if user.tokens_month ≥ MONTHLY_TOKEN_LIMIT then false
    else true
  (decision, disk)

/-- The boolean returned by `can_user_continue`. -/
def can_user_continue (today : Date) (user_id : Nat) (disk : Store) : Bool :=
  (can_user_continue_st today user_id disk).1

/-- The counter increments on bot.py lines 129-132. -/
def incrementRecord (tokens_used : Nat) (u : UsageRecord) : UsageRecord :=
  { u with
    daily := u.daily + 1
    monthly := u.monthly + 1
    tokens_today := u.tokens_today + tokens_used
    tokens_month := u.tokens_month + tokens_used }

/-- `register_usage_after_response` (bot.py lines 125-134): load the store,
reconcile, increment the counters of the user, and `save_usage` the whole store;
the returned `Store` is the new content of usage.json. -/
def register_usage_after_response (today : Date) (user_id : Nat)
    (tokens_used : Nat) (disk : Store) : Store :=
  let p := ensure_usage_structure today disk user_id
  aset p.1 user_id (incrementRecord tokens_used p.2)

/-- `get_or_create_thread` (bot.py lines 157-164). `threads` is the
in-memory `user_threads` dict; `fresh` is the id the external service would
assign to a newly created thread, consulted only when the user has no
stored thread. Returns the thread id together with the registry after the
call. -/
def get_or_create_thread (threads : List (Nat × String)) (fresh : String)
    (user_id : Nat) : String × List (Nat × String) :=
  match alookup threads user_id with
  | some t => (t, threads)
  | none => (fresh, aset threads user_id fresh)

/-- `reset_thread` (bot.py lines 167-170): unconditionally overwrite the
stored mapping with a brand-new thread id. -/
def reset_thread (threads : List (Nat × String)) (fresh : String)
    (user_id : Nat) : List (Nat × String) :=
  aset threads user_id fresh

/-- The loop guard on bot.py line 179: the run is still pending exactly
when its status string is "queued" or "in_progress". -/
def isActive (status : String) : Bool :=
  status == "queued" || status == "in_progress"

/-- The polling loop of `run_assistant` (bot.py lines 179-184), run for at
most `fuel` retrievals. `s i` is the status observed after `i` retrievals
(`s 0` is the status of the freshly created run; each loop iteration sleeps
one interval and retrieves the next status). Returns the number of
retrievals performed when the loop exits, and `none` when `fuel` retrievals
did not reach a terminal status — the source loop has no retry cap, so it
simply has not returned yet in that case. -/
def poll_run (s : Nat → String) : Nat → Nat → Option Nat
  | 0, i => if isActive (s i) then none else some i
  | fuel + 1, i => if isActive (s i) then poll_run s fuel (i + 1) else some i

/-- One content segment of a thread message; `text` is `c.text.value` and
is meaningful when `type = "text"`. -/
structure ContentPart where
  type : String
  text : String
deriving DecidableEq

/-- One thread message as listed by the service. -/
structure Message where
  role : String
  content : List ContentPart
deriving DecidableEq

/-- The inner loop of bot.py lines 199-202: the values of the plain-text
segments of the content of a message, in their given order. -/
def textParts (cs : List ContentPart) : List String :=
  (cs.filter fun c => c.type == "text").map fun c => c.text

/-- bot.py line 187. -/
def apology : String :=
  "⚠️ Hubo un problema generando la respuesta. Inténtalo de nuevo."

/-- bot.py line 205. -/
def no_response_found : String :=
  "⚠️ No encontré respuesta del asistente."

/-- bot.py line 356. -/
def limit_reached : String :=
  "⚠️ Has alcanzado el límite de uso. Inténtalo más tarde."

/-- The message scan of `run_assistant` (bot.py lines 197-203): walk
`messages.data` (ordered newest first by the service) and return the joined
text of the first message with the assistant role — the most recent
assistant-authored message. -/
def find_assistant_reply : List Message → Option String
  | [] => none
  | msg :: rest =>
    if msg.role == "assistant" then
      some (String.intercalate "\n" (textParts msg.content))
    else find_assistant_reply rest

/-- The terminal part of `run_assistant` (bot.py lines 186-205): given the
terminal status reached by the polling loop, the token usage the run
reports (`none` when `run.usage.total_tokens` raises), and the
message list, produce the `(reply, tokens)` pair the function returns. -/
def run_assistant_result (finalStatus : String) (usage : Option Nat)
    (messages : List Message) : String × Nat :=
  if finalStatus ≠ "completed" then (apology, 0)
  else
    let tokens_used := usage.getD 0
    match find_assistant_reply messages with
    | some reply => (reply, tokens_used)
    | none => (no_response_found, tokens_used)

/-- `run_assistant` as a whole, bounded by `fuel` retrievals: poll until the
status leaves the active set, then map the terminal status to a result.
`none` means the loop is still running after `fuel` retrievals. -/
def run_assistant (s : Nat → String) (usage : Option Nat)
    (messages : List Message) (fuel : Nat) : Option (String × Nat) :=
  (poll_run s fuel 0).map fun i => run_assistant_result (s i) usage messages

/-- The mutable state handle_message touches: the content of usage.json and
the in-memory `user_threads` registry. -/
structure BotState where
  disk : Store
  threads : List (Nat × String)
deriving DecidableEq

/-- `handle_message` (bot.py lines 351-376) for one inbound text, with the
external world summarized by: `fresh`, the thread id the service would
issue on a create; `finalStatus`, the terminal status the run reaches;
`usage`, the token usage the run reports; `messages`, the message list of
the thread after the run. Returns the reply sent to the user and the state after
the turn. -/
def handle_message (today : Date) (st : BotState) (user_id : Nat)
    (fresh : String) (finalStatus : String) (usage : Option Nat)
    (messages : List Message) : String × BotState :=
  if can_user_continue today user_id st.disk then
    let p := get_or_create_thread st.threads fresh user_id
    let r := run_assistant_result finalStatus usage messages
    let disk1 := register_usage_after_response today user_id r.2 st.disk
    (r.1, { disk := disk1, threads := p.2 })
  else
    (limit_reached, st)

/-- The usage records reachable, starting from the zeroed record created for
a new user, by the two store operations as they act on the entry of that
user:
`_ensure_usage_structure` replaces the entry by its reconciliation (theorem
`ensure_snd`), and `register_usage_after_response` replaces it by the
incremented reconciliation. Token counts are `Nat`, matching the
non-negative totals the service reports. -/
inductive ReachableRecord : UsageRecord → Prop
  | init (today : Date) : ReachableRecord (newRecord today)
  | reconcile (today : Date) {u : UsageRecord} :
      ReachableRecord u → ReachableRecord (reconcileRecord today u)
  | register (today : Date) (tokens_used : Nat) {u : UsageRecord} :
      ReachableRecord u →
      ReachableRecord (incrementRecord tokens_used (reconcileRecord today u))

/-- Sample day: 2024-01-15. -/
def dJan15 : Date := ⟨2024, 1, 15⟩

/-- Sample day: 2024-01-16, the day after `dJan15` in the same month. -/
def dJan16 : Date := ⟨2024, 1, 16⟩

/-- A record last reconciled on `dJan15`, with nonzero counters. -/
def staleUser : UsageRecord :=
  { daily := 5, monthly := 7, last_day := dJan15, last_month := dJan15.toMonth,
    tokens_today := 100, tokens_month := 300 }

/-- A one-user store holding `staleUser` under user id 7. -/
def diskStale : Store := [(7, staleUser)]

/-- A record whose daily message counter is exactly at the daily limit,
with fresh stamps for `dJan16`. -/
def exhaustedUser : UsageRecord :=
  { daily := 50, monthly := 60, last_day := dJan16, last_month := dJan16.toMonth,
    tokens_today := 900, tokens_month := 5000 }

/-- A one-user store holding `exhaustedUser` under user id 7. -/
def diskExhausted : Store := [(7, exhaustedUser)]

/-- Bot state used to exercise the quota-rejection path. -/
def stExhausted : BotState := ⟨diskExhausted, [(7, "th1")]⟩

/-- A sample thread registry with a stored handle for user 1. -/
def threadsEx : List (Nat × String) := [(1, "th_a")]

/-- A status sequence that is active for two polls and then completed. -/
def pollSeqEx : Nat → String :=
  fun n => if n < 2 then "queued" else "completed"

/-- A user message with no content. -/
def userMsgEx : Message := ⟨"user", []⟩

/-- An assistant message with the two text segments of §8 of the spec. -/
def assistantMsgEx : Message := ⟨"assistant", [⟨"text", "a"⟩, ⟨"text", "b"⟩]⟩

/-- A message list, newest first, whose most recent assistant message is
`assistantMsgEx` behind one newer user message. -/
def msgsEx : List Message := [userMsgEx, assistantMsgEx]

theorem alookup_aset_self {α : Type} (l : List (Nat × α)) (k : Nat) (v : α) :
    alookup (aset l k v) k = some v := by
  induction l with
  | nil => simp [aset, alookup]
  | cons hd tl ih =>
    obtain ⟨k0, v0⟩ := hd
    by_cases h : k0 = k
    · simp [aset, alookup, h]
    · simp [aset, alookup, h, ih]

theorem alookup_aset_ne {α : Type} (l : List (Nat × α)) (k k' : Nat) (v : α)
    (h : k' ≠ k) : alookup (aset l k v) k' = alookup l k' := by
  induction l with
  | nil => simp [aset, alookup, Ne.symm h]
  | cons hd tl ih =>
    obtain ⟨k0, v0⟩ := hd
    by_cases h0 : k0 = k
    · subst h0
      simp [aset, alookup, Ne.symm h]
    · simp only [aset, if_neg h0]
      by_cases h1 : k0 = k'
      · simp [alookup, h1]
      · simp [alookup, h1, ih]

/-- Flattened description of the two sequenced window resets: each counter
is zeroed exactly when its own stamp is stale, and both stamps end up at
the current clock. -/
theorem reconcileRecord_eq (today : Date) (u : UsageRecord) :
    reconcileRecord today u =
      { daily := if u.last_day = today then u.daily else 0
        monthly := if u.last_month = today.toMonth then u.monthly else 0
        last_day := today
        last_month := today.toMonth
        tokens_today := if u.last_day = today then u.tokens_today else 0
        tokens_month := if u.last_month = today.toMonth then u.tokens_month else 0 } := by
  obtain ⟨d, m, ld, lm, tt, tm⟩ := u
  simp only [reconcileRecord]
  by_cases hd : ld = today <;> by_cases hm : lm = today.toMonth <;>
    simp [hd, hm]

theorem reconcile_newRecord (today : Date) :
    reconcileRecord today (newRecord today) = newRecord today := by
  simp [reconcileRecord_eq, newRecord]

/-- The record component returned by `_ensure_usage_structure` is the
reconciliation of the stored record (of the zeroed record when absent). -/
theorem ensure_snd (today : Date) (usage : Store) (uid : Nat) :
    (ensure_usage_structure today usage uid).2 =
      reconcileRecord today ((alookup usage uid).getD (newRecord today)) := by
  simp only [ensure_usage_structure]
  cases h : alookup usage uid with
  | some u => simp [h]
  | none => simp [h, alookup_aset_self]

theorem ensure_fst_lookup (today : Date) (usage : Store) (uid : Nat) :
    alookup (ensure_usage_structure today usage uid).1 uid =
      some (ensure_usage_structure today usage uid).2 := by
  simp only [ensure_usage_structure]
  cases h : alookup usage uid <;> simp [h, alookup_aset_self]

theorem ensure_fst_frame (today : Date) (usage : Store) (uid v : Nat)
    (h : v ≠ uid) :
    alookup (ensure_usage_structure today usage uid).1 v = alookup usage v := by
  simp only [ensure_usage_structure]
  cases h0 : alookup usage uid <;>
    simp [h0, alookup_aset_ne _ _ _ _ h]

theorem ensure_snd_stamps (today : Date) (usage : Store) (uid : Nat) :
    (ensure_usage_structure today usage uid).2.last_day = today ∧
    (ensure_usage_structure today usage uid).2.last_month = today.toMonth := by
  rw [ensure_snd, reconcileRecord_eq]
  exact ⟨rfl, rfl⟩

theorem incrementRecord_mk (tokens_used : Nat) (u : UsageRecord) :
    incrementRecord tokens_used u =
      { daily := u.daily + 1
        monthly := u.monthly + 1
        last_day := u.last_day
        last_month := u.last_month
        tokens_today := u.tokens_today + tokens_used
        tokens_month := u.tokens_month + tokens_used } := rfl

theorem register_lookup (today : Date) (uid tokens_used : Nat) (disk : Store) :
    alookup (register_usage_after_response today uid tokens_used disk) uid =
      some (incrementRecord tokens_used (ensure_usage_structure today disk uid).2) := by
  simp only [register_usage_after_response]
  exact alookup_aset_self _ _ _

theorem register_frame (today : Date) (uid tokens_used : Nat) (disk : Store)
    (v : Nat) (hv : v ≠ uid) :
    alookup (register_usage_after_response today uid tokens_used disk) v =
      alookup disk v := by
  simp only [register_usage_after_response]
  rw [alookup_aset_ne _ _ _ _ hv, ensure_fst_frame _ _ _ _ hv]

theorem find_assistant_reply_of_no_assistant (messages : List Message)
    (h : ∀ m ∈ messages, m.role ≠ "assistant") :
    find_assistant_reply messages = none := by
  induction messages with
  | nil => rfl
  | cons msg rest ih =>
    have h0 : msg.role ≠ "assistant" := h msg (List.mem_cons_self msg rest)
    simp only [find_assistant_reply, beq_iff_eq, if_neg h0]
    exact ih fun m hm => h m (List.mem_cons_of_mem msg hm)

theorem find_assistant_reply_first (pre : List Message) (msg : Message)
    (post : List Message) (hpre : ∀ m ∈ pre, m.role ≠ "assistant")
    (hmsg : msg.role = "assistant") :
    find_assistant_reply (pre ++ msg :: post) =
      some (String.intercalate "\n" (textParts msg.content)) := by
  induction pre with
  | nil => simp [find_assistant_reply, hmsg]
  | cons m0 rest ih =>
    have h0 : m0.role ≠ "assistant" := hpre m0 (List.mem_cons_self m0 rest)
    simp only [List.cons_append, find_assistant_reply, beq_iff_eq, if_neg h0]
    exact ih fun m hm => hpre m (List.mem_cons_of_mem m0 hm)

theorem poll_run_exact (s : Nat → String) :
    ∀ k i, (∀ j, j < k → isActive (s (i + j)) = true) →
      isActive (s (i + k)) = false → poll_run s k i = some (i + k) := by
  intro k
  induction k with
  | zero =>
    intro i h1 h2
    simp only [Nat.add_zero] at h2
    simp [poll_run, h2]
  | succ k ih =>
    intro i h1 h2
    have h0 : isActive (s i) = true := by simpa using h1 0 (Nat.succ_pos k)
    have heq : i + (k + 1) = (i + 1) + k := by omega
    rw [heq] at h2 ⊢
    have hpre : ∀ j, j < k → isActive (s ((i + 1) + j)) = true := by
      intro j hj
      have hh := h1 (j + 1) (Nat.succ_lt_succ hj)
      have heq2 : i + (j + 1) = (i + 1) + j := by omega
      rwa [heq2] at hh
    have hrec := ih (i + 1) hpre h2
    simp [poll_run, h0, hrec]

theorem poll_run_stuck (s : Nat → String) (h : ∀ n, isActive (s n) = true) :
    ∀ fuel i, poll_run s fuel i = none := by
  intro fuel
  induction fuel with
  | zero => intro i; simp [poll_run, h i]
  | succ k ih => intro i; simp [poll_run, h i, ih]

theorem reconcile_preserves (today : Date) (u : UsageRecord)
    (hc : u.last_month = u.last_day.toMonth)
    (h1 : u.daily ≤ u.monthly) (h2 : u.tokens_today ≤ u.tokens_month) :
    (reconcileRecord today u).last_month = (reconcileRecord today u).last_day.toMonth ∧
    (reconcileRecord today u).daily ≤ (reconcileRecord today u).monthly ∧
    (reconcileRecord today u).tokens_today ≤ (reconcileRecord today u).tokens_month := by
  rw [reconcileRecord_eq]
  by_cases hm : u.last_month = today.toMonth
  · by_cases hd : u.last_day = today <;> simp [hm, hd, h1, h2]
  · have hd : u.last_day ≠ today := by
      intro hcon
      exact hm (by rw [hc, hcon])
    simp [hm, hd]

theorem reachable_invariant (u : UsageRecord) (h : ReachableRecord u) :
    u.last_month = u.last_day.toMonth ∧ u.daily ≤ u.monthly ∧
    u.tokens_today ≤ u.tokens_month := by
  induction h with
  | init today => exact ⟨rfl, Nat.le_refl 0, Nat.le_refl 0⟩
  | reconcile today hu ih =>
    exact reconcile_preserves today _ ih.1 ih.2.1 ih.2.2
  | register today tokens_used hu ih =>
    have hr := reconcile_preserves today _ ih.1 ih.2.1 ih.2.2
    exact ⟨hr.1, Nat.add_le_add_right hr.2.1 1, Nat.add_le_add_right hr.2.2 tokens_used⟩

/-- Claim C1: after reconciliation, `can_user_continue` returns `true`
exactly when all three limited counters are strictly below their limits
(`daily < DAILY_MSG_LIMIT`, `monthly < MONTHLY_MSG_LIMIT`,
`tokens_month < MONTHLY_TOKEN_LIMIT`), and hence returns `false` whenever
any one of them is at or above its limit; no other counter (in particular
`tokens_today`) influences the decision. -/
theorem claimC1_admission_conjunction (today : Date) (disk : Store) (uid : Nat) :
    can_user_continue today uid disk = true ↔
      ((ensure_usage_structure today disk uid).2.daily < DAILY_MSG_LIMIT ∧
       (ensure_usage_structure today disk uid).2.monthly < MONTHLY_MSG_LIMIT ∧
       (ensure_usage_structure today disk uid).2.tokens_month < MONTHLY_TOKEN_LIMIT) := by
  simp only [can_user_continue, can_user_continue_st]
  split_ifs with h1 h2 h3 <;> simp <;> omega

/-- Claim C2: reconciling a stored record zeroes `daily` and `tokens_today`
and restamps `last_day` exactly when the stored day differs from today, and
independently zeroes `monthly` and `tokens_month` and restamps `last_month`
exactly when the stored month differs from the current month; in particular,
on a day rollover without a month rollover the monthly counters are
untouched, each reset depending only on its own stamp. -/
theorem claimC2_window_reconciliation (today : Date) (usage : Store)
    (uid : Nat) (u : UsageRecord) (h : alookup usage uid = some u) :
    (ensure_usage_structure today usage uid).2.daily =
      (if u.last_day = today then u.daily else 0) ∧
    (ensure_usage_structure today usage uid).2.tokens_today =
      (if u.last_day = today then u.tokens_today else 0) ∧
    (ensure_usage_structure today usage uid).2.last_day = today ∧
    (ensure_usage_structure today usage uid).2.monthly =
      (if u.last_month = today.toMonth then u.monthly else 0) ∧
    (ensure_usage_structure today usage uid).2.tokens_month =
      (if u.last_month = today.toMonth then u.tokens_month else 0) ∧
    (ensure_usage_structure today usage uid).2.last_month = today.toMonth := by
  rw [ensure_snd, h, Option.getD_some, reconcileRecord_eq]
  exact ⟨rfl, rfl, rfl, rfl, rfl, rfl⟩

/-- Witness for C2 at a concrete stale store: on 2024-01-16 the record last
used on 2024-01-15 has its daily counters zeroed and its monthly counters
kept. -/
theorem claimC2_witness :
    (ensure_usage_structure dJan16 diskStale 7).2.daily =
      (if staleUser.last_day = dJan16 then staleUser.daily else 0) ∧
    (ensure_usage_structure dJan16 diskStale 7).2.tokens_today =
      (if staleUser.last_day = dJan16 then staleUser.tokens_today else 0) ∧
    (ensure_usage_structure dJan16 diskStale 7).2.last_day = dJan16 ∧
    (ensure_usage_structure dJan16 diskStale 7).2.monthly =
      (if staleUser.last_month = dJan16.toMonth then staleUser.monthly else 0) ∧
    (ensure_usage_structure dJan16 diskStale 7).2.tokens_month =
      (if staleUser.last_month = dJan16.toMonth then staleUser.tokens_month else 0) ∧
    (ensure_usage_structure dJan16 diskStale 7).2.last_month = dJan16.toMonth :=
  claimC2_window_reconciliation dJan16 diskStale 7 staleUser rfl

/-- Claim C3 is false on the code: `can_user_continue` loads usage.json and
reconciles only its in-memory copy — it never calls `save_usage` — so even
on an input where reconciliation resets stale counters (here a record last
used on 2024-01-15, checked on 2024-01-16), the persisted store after the
call is exactly the store read, not the reconciled store. -/
theorem claimC3_counterexample :
    (can_user_continue_st dJan16 7 diskStale).2 = diskStale ∧
    (ensure_usage_structure dJan16 diskStale 7).1 ≠ diskStale := by
  exact ⟨rfl, by decide⟩

/-- Claim C3 amended: calling `can_user_continue` alone never mutates the
persisted usage store — reconciliation happens only on the transient
in-memory copy, and its effects reach disk only through a later
`register_usage_after_response`. -/
theorem claimC3_amended_check_never_persists (today : Date) (uid : Nat)
    (disk : Store) : (can_user_continue_st today uid disk).2 = disk := rfl

/-- Claim C4: the terminal mapping of `run_assistant`. A run that ends in
any status other than "completed" yields the fixed apology string with zero
tokens. A completed run with no assistant-authored message yields the fixed
"no response found" string. A completed run whose most recent
assistant-authored message (the first one in the newest-first list) has
plain-text segments yields those segments joined in order with a newline;
for segments ["a", "b"] the reply is "a\nb". -/
theorem claimC4_terminal_mapping (finalStatus : String) (usage : Option Nat)
    (messages : List Message) :
    (finalStatus ≠ "completed" →
       run_assistant_result finalStatus usage messages = (apology, 0)) ∧
    ((∀ m ∈ messages, m.role ≠ "assistant") →
       (run_assistant_result "completed" usage messages).1 = no_response_found) ∧
    (∀ pre msg post, messages = pre ++ msg :: post →
       (∀ m ∈ pre, m.role ≠ "assistant") → msg.role = "assistant" →
       run_assistant_result "completed" usage messages =
         (String.intercalate "\n" (textParts msg.content), usage.getD 0) ∧
       (textParts msg.content = ["a", "b"] →
         (run_assistant_result "completed" usage messages).1 = "a\nb")) := by
  refine ⟨?_, ?_, ?_⟩
  · intro hfail
    simp [run_assistant_result, hfail]
  · intro hnone
    simp [run_assistant_result, find_assistant_reply_of_no_assistant messages hnone]
  · intro pre msg post hsplit hpre hmsg
    have hfind := find_assistant_reply_first pre msg post hpre hmsg
    constructor
    · simp [run_assistant_result, hsplit, hfind]
    · intro hab
      simp [run_assistant_result, hsplit, hfind, hab]
      rfl

/-- Witness for C4: a failed run maps to the apology with zero tokens; a
completed run over one user message maps to "no response found"; a
completed run whose newest assistant message has segments ["a", "b"] maps
to "a\nb". -/
theorem claimC4_witness :
    run_assistant_result "failed" (some 9) msgsEx = (apology, 0) ∧
    (run_assistant_result "completed" (some 9) [userMsgEx]).1 = no_response_found ∧
    (run_assistant_result "completed" (some 9) msgsEx).1 = "a\nb" :=
  ⟨(claimC4_terminal_mapping "failed" (some 9) msgsEx).1 (by decide),
   (claimC4_terminal_mapping "completed" (some 9) [userMsgEx]).2.1 (by decide),
   ((claimC4_terminal_mapping "completed" (some 9) msgsEx).2.2
      [userMsgEx] assistantMsgEx [] rfl (by decide) rfl).2 rfl⟩

/-- Claim C5: when the run ends in a non-success terminal state,
`handle_message` still registers the turn with zero tokens: the stored
record of the user gets `daily` and `monthly` incremented by one while
`tokens_today` and `tokens_month` keep their reconciled values, and the
user is sent the fixed apology. -/
theorem claimC5_failed_run_still_registers (today : Date) (st : BotState)
    (uid : Nat) (fresh finalStatus : String) (usage : Option Nat)
    (messages : List Message) (hfail : finalStatus ≠ "completed")
    (hok : can_user_continue today uid st.disk = true) :
    (handle_message today st uid fresh finalStatus usage messages).1 = apology ∧
    alookup (handle_message today st uid fresh finalStatus usage messages).2.disk uid =
      some
        { daily := (ensure_usage_structure today st.disk uid).2.daily + 1
          monthly := (ensure_usage_structure today st.disk uid).2.monthly + 1
          last_day := today
          last_month := today.toMonth
          tokens_today := (ensure_usage_structure today st.disk uid).2.tokens_today
          tokens_month := (ensure_usage_structure today st.disk uid).2.tokens_month } := by
  have hres : run_assistant_result finalStatus usage messages = (apology, 0) := by
    simp [run_assistant_result, hfail]
  have hstamps := ensure_snd_stamps today st.disk uid
  constructor
  · simp [handle_message, hok, hres]
  · simp only [handle_message, hok, if_true, hres]
    rw [register_lookup, incrementRecord_mk, hstamps.1, hstamps.2]
    simp

/-- Witness for C5: user 7, at quota headroom on 2024-01-16, whose run
fails: the message counters advance by one and the token counters stay. -/
theorem claimC5_witness :
    (handle_message dJan16 ⟨diskStale, []⟩ 7 "th" "failed" none []).1 = apology ∧
    alookup (handle_message dJan16 ⟨diskStale, []⟩ 7 "th" "failed" none []).2.disk 7 =
      some
        { daily := (ensure_usage_structure dJan16 diskStale 7).2.daily + 1
          monthly := (ensure_usage_structure dJan16 diskStale 7).2.monthly + 1
          last_day := dJan16
          last_month := dJan16.toMonth
          tokens_today := (ensure_usage_structure dJan16 diskStale 7).2.tokens_today
          tokens_month := (ensure_usage_structure dJan16 diskStale 7).2.tokens_month } :=
  claimC5_failed_run_still_registers dJan16 ⟨diskStale, []⟩ 7 "th" "failed"
    none [] (by decide) (by decide)

/-- Claim C6: `register_usage_after_response` reconciles the stamps first
(the stored record ends with the current stamps), then adds exactly one to
`daily` and `monthly` and `tokens_used` to `tokens_today` and
`tokens_month`, relative to the reconciled record; the returned value is
the whole store written back by `save_usage`, in which the entry of every
other user is untouched. -/
theorem claimC6_register_usage (today : Date) (uid tokens_used : Nat)
    (disk : Store) :
    alookup (register_usage_after_response today uid tokens_used disk) uid =
      some
        { daily := (ensure_usage_structure today disk uid).2.daily + 1
          monthly := (ensure_usage_structure today disk uid).2.monthly + 1
          last_day := today
          last_month := today.toMonth
          tokens_today :=
            (ensure_usage_structure today disk uid).2.tokens_today + tokens_used
          tokens_month :=
            (ensure_usage_structure today disk uid).2.tokens_month + tokens_used } ∧
    ∀ v, v ≠ uid →
      alookup (register_usage_after_response today uid tokens_used disk) v =
        alookup disk v := by
  have hstamps := ensure_snd_stamps today disk uid
  constructor
  · rw [register_lookup, incrementRecord_mk, hstamps.1, hstamps.2]
  · intro v hv
    exact register_frame today uid tokens_used disk v hv

/-- Witness for C6 on the concrete stale store: registering 25 tokens for
user 7 on 2024-01-16 stores the reconciled-and-incremented record and
leaves absent user 3 absent. -/
theorem claimC6_witness :
    alookup (register_usage_after_response dJan16 7 25 diskStale) 7 =
      some
        { daily := (ensure_usage_structure dJan16 diskStale 7).2.daily + 1
          monthly := (ensure_usage_structure dJan16 diskStale 7).2.monthly + 1
          last_day := dJan16
          last_month := dJan16.toMonth
          tokens_today := (ensure_usage_structure dJan16 diskStale 7).2.tokens_today + 25
          tokens_month := (ensure_usage_structure dJan16 diskStale 7).2.tokens_month + 25 } ∧
    alookup (register_usage_after_response dJan16 7 25 diskStale) 3 =
      alookup diskStale 3 :=
  ⟨(claimC6_register_usage dJan16 7 25 diskStale).1,
   (claimC6_register_usage dJan16 7 25 diskStale).2 3 (by decide)⟩

/-- Claim C7: when the admission check fails, `handle_message` replies with
the fixed limit-reached message and returns its state unchanged — neither
the persisted usage store nor the thread registry is mutated by the
rejected turn. -/
theorem claimC7_quota_rejection_no_mutation (today : Date) (st : BotState)
    (uid : Nat) (fresh finalStatus : String) (usage : Option Nat)
    (messages : List Message)
    (h : can_user_continue today uid st.disk = false) :
    handle_message today st uid fresh finalStatus usage messages =
      (limit_reached, st) := by
  simp [handle_message, h]

/-- Witness for C7: user 7 at the daily limit is rejected and the state is
returned untouched. -/
theorem claimC7_witness :
    handle_message dJan16 stExhausted 7 "th" "completed" none [] =
      (limit_reached, stExhausted) :=
  claimC7_quota_rejection_no_mutation dJan16 stExhausted 7 "th" "completed"
    none [] (by decide)

/-- Claim C8: `get_or_create_thread` returns the stored handle unchanged
when one exists, otherwise stores and returns the freshly created one; and
calling it twice in succession without an intervening reset returns the
identical handle both times with the registry unchanged by the second
call. -/
theorem claimC8_session_stability (threads : List (Nat × String))
    (fresh1 fresh2 : String) (uid : Nat) :
    get_or_create_thread (get_or_create_thread threads fresh1 uid).2 fresh2 uid =
      ((get_or_create_thread threads fresh1 uid).1,
       (get_or_create_thread threads fresh1 uid).2) ∧
    (∀ t, alookup threads uid = some t →
       get_or_create_thread threads fresh1 uid = (t, threads)) ∧
    (alookup threads uid = none →
       get_or_create_thread threads fresh1 uid = (fresh1, aset threads uid fresh1)) := by
  cases h : alookup threads uid with
  | some t =>
    refine ⟨?_, ?_, ?_⟩
    · simp [get_or_create_thread, h]
    · intro t2 h2
      cases h2
      simp [get_or_create_thread, h]
    · intro h2
      exact Option.noConfusion h2
  | none =>
    refine ⟨?_, ?_, ?_⟩
    · simp [get_or_create_thread, h, alookup_aset_self]
    · intro t2 h2
      exact Option.noConfusion h2
    · intro h2
      simp [get_or_create_thread, h]

/-- Witness for C8: the stored handle of user 1 is returned as is; an
unknown user 2 gets the fresh handle stored and returned. -/
theorem claimC8_witness :
    get_or_create_thread threadsEx "f1" 1 = ("th_a", threadsEx) ∧
    get_or_create_thread threadsEx "f1" 2 = ("f1", aset threadsEx 2 "f1") :=
  ⟨(claimC8_session_stability threadsEx "f1" "f2" 1).2.1 "th_a" rfl,
   (claimC8_session_stability threadsEx "f1" "f2" 2).2.2 rfl⟩

/-- Claim C9: the driver polls exactly while the observed status is
"queued" or "in_progress": when some poll eventually observes a status
outside that set, there is a fuel bound under which the loop returns after
exactly the first such observation (every earlier observation was active),
and `run_assistant` returns a result; when every observation is active, the
loop never returns, for any amount of fuel. -/
theorem claimC9_polling_termination (s : Nat → String) :
    ((∃ n, isActive (s n) = false) →
       (∃ fuel k, poll_run s fuel 0 = some k ∧ isActive (s k) = false ∧
          ∀ j, j < k → isActive (s j) = true) ∧
       ∀ usage messages, ∃ fuel r,
          run_assistant s usage messages fuel = some r) ∧
    ((∀ n, isActive (s n) = true) →
       ∀ fuel, poll_run s fuel 0 = none ∧
         ∀ usage messages, run_assistant s usage messages fuel = none) := by
  constructor
  · intro h
    have hk : isActive (s (Nat.find h)) = false := Nat.find_spec h
    have hmin : ∀ j, j < Nat.find h → isActive (s j) = true := by
      intro j hj
      have hne := Nat.find_min h hj
      cases hb : isActive (s j) with
      | false => exact absurd hb hne
      | true => rfl
    have hp : poll_run s (Nat.find h) 0 = some (Nat.find h) := by
      have := poll_run_exact s (Nat.find h) 0
        (fun j hj => by simpa using hmin j (by simpa using hj))
        (by simpa using hk)
      simpa using this
    constructor
    · exact ⟨Nat.find h, Nat.find h, hp, hk, hmin⟩
    · intro usage messages
      exact ⟨Nat.find h, run_assistant_result (s (Nat.find h)) usage messages,
        by simp [run_assistant, hp]⟩
  · intro h fuel
    constructor
    · exact poll_run_stuck s h fuel 0
    · intro usage messages
      simp [run_assistant, poll_run_stuck s h fuel 0]

/-- Witness for C9 on a status sequence that is "queued" twice and then
"completed": the loop stops at the first terminal observation. -/
theorem claimC9_witness :
    ∃ fuel k, poll_run pollSeqEx fuel 0 = some k ∧
      isActive (pollSeqEx k) = false ∧
      ∀ j, j < k → isActive (pollSeqEx j) = true :=
  ((claimC9_polling_termination pollSeqEx).1 ⟨2, by decide⟩).1

/-- Claim C10: every usage record reachable from the zeroed initial record
by reconciliations and registrations satisfies `daily ≤ monthly` and
`tokens_today ≤ tokens_month`. The proof strengthens the invariant with
`last_month = last_day.toMonth` — the day stamp embeds the month — so a
month rollover forces the day stamps apart and the daily reset fires with
the monthly one. -/
theorem claimC10_counter_invariant (u : UsageRecord) (h : ReachableRecord u) :
    u.daily ≤ u.monthly ∧ u.tokens_today ≤ u.tokens_month :=
  ⟨(reachable_invariant u h).2.1, (reachable_invariant u h).2.2⟩

/-- Witness for C10 at the record obtained by creating a fresh record on
2024-01-15 and registering 5 tokens on 2024-01-16. -/
theorem claimC10_witness :
    (incrementRecord 5 (reconcileRecord dJan16 (newRecord dJan15))).daily ≤
      (incrementRecord 5 (reconcileRecord dJan16 (newRecord dJan15))).monthly ∧
    (incrementRecord 5 (reconcileRecord dJan16 (newRecord dJan15))).tokens_today ≤
      (incrementRecord 5 (reconcileRecord dJan16 (newRecord dJan15))).tokens_month :=
  claimC10_counter_invariant _
    (ReachableRecord.register dJan16 5 (ReachableRecord.init dJan15))

end Simbi
